import Mathlib

/-!
Shallow embedding of `mmk` (src/main.rs), a tool that applies a different
keyboard layout group to a chosen X11 window by grabbing its key events,
translating them through Xlib keysym lookups, and re-sending them as
synthetic events.

External X11/Xlib calls are modelled as oracle functions (`XkbOracle` for the
three Xlib keysym/keycode/modifier lookups, `XServer` for per-window event
masks, `WinProps` for decoded window properties).  Machine integers (u8, u16,
u32, usize) are modelled as `Nat`; the only truncating cast in the dispatch
loop (`e.state = state as _`, u32 to u16) is modelled with `% 2 ^ 16`.
Property decode failures (invalid UTF-8), which abort `main` with an error,
are outside the model: `WinProps` yields already-decoded strings, and a
window whose `WM_CLASS` reply has the wrong format or type is modelled by
`classProp` returning `none` (the `continue` branch of the class loop).
-/

set_option autoImplicit false

namespace Mmk

/-- `Config` (src/main.rs lines 66-75).  The Rust field `class` is named
`cls` here because `class` is a Lean keyword; `wid`, `pid` are `u32` and
`layout` is `usize`, all modelled as `Nat`. -/
structure Config where
  help : Bool
  all_windows : Bool
  layout : Nat
  wid : Option Nat
  cls : Option String
  pid : Option Nat
  name : Option String
deriving DecidableEq

/-- `Config::default()` (from `#[derive(Default)]`). -/
def defaultConfig : Config :=
  { help := false, all_windows := false, layout := 0,
    wid := none, cls := none, pid := none, name := none }

/-- The fields of an X11 key press/release event that the program reads or
writes: `detail` (keycode, u8), `state` (modifier state, u16), `event` (the
event window id), `time`, and the origin flag `sent_event()` marking a
client-sent (synthetic) event. -/
structure KeyEvt where
  detail : Nat
  state : Nat
  event : Nat
  time : Nat
  sentEvent : Bool
deriving DecidableEq

/-- `enum KeyEvent` (src/main.rs lines 158-161). -/
inductive KeyEvent where
  | press (e : KeyEvt)
  | release (e : KeyEvt)
deriving DecidableEq

/-- Oracle for the three Xlib calls used by `translate`:
`XkbKeycodeToKeysym(dpy, detail, layout, state)`, `XKeysymToKeycode` (returns
u8) and `XkbKeysymToModifiers` (returns u32).  The display pointer is
implicit in the oracle. -/
structure XkbOracle where
  keycodeToKeysym : Nat → Nat → Nat → Nat
  keysymToKeycode : Nat → Nat
  keysymToModifiers : Nat → Nat

/-- `translate` (src/main.rs lines 163-187): resolve the keysym the requested
layout produces for the pressed keycode, map it back to a keycode and a
modifier mask, and fall back to the original pair when either mapped value
is `>= 204`.  The Rust function returns `Result` but has no error path. -/
def translate (o : XkbOracle) (ev : KeyEvent) (layout_index : Nat) : Nat × Nat :=
  let event := match ev with
    | .press e => e
    | .release e => e
  let layout_keysym := o.keycodeToKeysym event.detail layout_index event.state
  let ret := (o.keysymToKeycode layout_keysym, o.keysymToModifiers layout_keysym)
  if 204 ≤ ret.1 ∨ 204 ≤ ret.2 then (event.detail, event.state) else ret

/-- The wrapped event of a `KeyEvent` (the `match` binding `event` at the
top of `translate`). -/
def KeyEvent.evt : KeyEvent → KeyEvt
  | .press e => e
  | .release e => e

/-- Loop body of `rec_query_tree` (src/main.rs lines 196-201): for each child
first recurse, then push the child.  `f` is the recursive call at the next
smaller fuel. -/
def rqtChildren (f : Nat → List Nat → Option (List Nat)) :
    List Nat → List Nat → Option (List Nat)
  | [], vec => some vec
  | c :: cs, vec =>
    match f c vec with
    | none => none
    | some v => rqtChildren f cs (v ++ [c])

/-- `rec_query_tree` (src/main.rs lines 189-205).  The X server's window tree
is the oracle `children`; the Rust recursion carries no fuel, so `none`
models non-termination (fuel exhaustion at every depth bound). -/
def rec_query_tree (children : Nat → List Nat) :
    Nat → Nat → List Nat → Option (List Nat)
  | 0, _, _ => none
  | fuel + 1, win, vec =>
    if vec.contains win then some vec
    else rqtChildren (fun c acc => rec_query_tree children fuel c acc) (children win) vec

/-- Decoded window properties, as the resolution loops in `main` read them.
`classProp` is `none` when the `WM_CLASS` reply is absent or has the wrong
format/type (the `continue` branch); `pidProp` is `none` when the
`_NET_WM_PID` reply has no 32-bit value (the `unwrap_or_else(|| vec![0])`
default). -/
structure WinProps where
  classProp : Nat → Option (String × String)
  pidProp : Nat → Option Nat
  netName : Nat → String
  wmName : Nat → String

/-- Class criterion check (src/main.rs lines 248-270): format the reply's
class and instance as `"class.instance"` and compare for equality. -/
def classMatches (c : String) (props : WinProps) (w : Nat) : Bool :=
  match props.classProp w with
  | some p => (p.1 ++ "." ++ p.2) == c
  | none => false

/-- Pid criterion check (src/main.rs lines 276-287): the client pid defaults
to 0 when the property has no 32-bit value. -/
def pidMatches (p : Nat) (props : WinProps) (w : Nat) : Bool :=
  (props.pidProp w).getD 0 == p

/-- Name criterion check (src/main.rs lines 292-305): match when either the
`_NET_WM_NAME` or the `WM_NAME` string equals the target. -/
def nameMatches (n : String) (props : WinProps) (w : Nat) : Bool :=
  props.netName w == n || props.wmName w == n

/-- The window-resolution phase of `main` (src/main.rs lines 242-306): start
from the explicit id if given, then for each supplied criterion append every
client that satisfies it.  Each criterion loop pushes independently. -/
def resolveTargets (cfg : Config) (clients : List Nat) (props : WinProps) : List Nat :=
  let windows : List Nat := match cfg.wid with
    | some wid => [wid]
    | none => []
  let windows := match cfg.cls with
    | some c => windows ++ clients.filter (classMatches c props)
    | none => windows
  let windows := match cfg.pid with
    | some p => windows ++ clients.filter (pidMatches p props)
    | none => windows
  match cfg.name with
  | some n => windows ++ clients.filter (nameMatches n props)
  | none => windows

/-- `EventMask::KEY_PRESS` (X11 `KeyPressMask` bit, value 1). -/
def keyPressBit : Nat := 1

/-- `EventMask::KEY_RELEASE` (X11 `KeyReleaseMask` bit, value 2). -/
def keyReleaseBit : Nat := 2

/-- The X server state visible to the grab installer: each window's
`your_event_mask`, as read by `get_window_attributes` and written by
`change_window_attributes`. -/
structure XServer where
  eventMask : Nat → Nat

/-- Grab-installer loop body (src/main.rs lines 315-330) for one window:
read the mask `m`, write back `m | KEY_PRESS | KEY_RELEASE`, then re-read
the mask for the `masks` table.  Returns (new server state, mask read before
installation, mask stored in the table). -/
def installGrab (srv : XServer) (window : Nat) : XServer × Nat × Nat :=
  let m := srv.eventMask window
  let srv2 : XServer :=
    ⟨fun w => if w = window then m ||| keyPressBit ||| keyReleaseBit else srv.eventMask w⟩
  (srv2, m, srv2.eventMask window)

/-- Protocol-level operations of `main`, recorded as a trace.  The property
reads performed inside the resolution loops are not traced individually. -/
inductive Op where
  | connect
  | openDisplay
  | internAtom (a : String)
  | printUsage
  | queryTree
  | getAttributes (w : Nat)
  | changeAttributes (w : Nat) (mask : Nat)
  | grabKey (w : Nat)
  | flush
  | printErr (s : String)
deriving DecidableEq

/-- How the modelled `main` leaves its startup phase. -/
inductive Outcome where
  | exited (code : Nat)
  | entersLoop (masks : List (Nat × Nat))
  | diverged
deriving DecidableEq

/-- One iteration of the grab-installer loop, threading the server state,
the operation trace, and the `masks` table through `installGrab`. -/
def grabLoopStep (acc : XServer × List Op × List (Nat × Nat)) (window : Nat) :
    XServer × List Op × List (Nat × Nat) :=
  let res := installGrab acc.1 window
  (res.1,
   acc.2.1 ++
     [Op.getAttributes window,
      Op.changeAttributes window (res.2.1 ||| keyPressBit ||| keyReleaseBit),
      Op.grabKey window, Op.flush, Op.getAttributes window],
   acc.2.2 ++ [(window, res.2.2)])

/-- The grab-installer loop of `main` (src/main.rs lines 315-330) over the
selected windows, also producing the trace of protocol operations and the
`masks` table in insertion order. -/
def grabLoop (srv : XServer) (wins : List Nat) :
    XServer × List Op × List (Nat × Nat) :=
  wins.foldl grabLoopStep (srv, [], [])

/-- The diagnostic printed when no window matches (src/main.rs line 332). -/
def noWindowErr : String := "error: No window for the given specifications found."

/-- The world the modelled `main` runs against: the X server's mask state,
the root window, the child relation for `query_tree`, and the decoded window
properties. -/
structure MainWorld where
  srv : XServer
  root : Nat
  children : Nat → List Nat
  props : WinProps

/-- Startup phase of `main` (src/main.rs lines 207-336), as a trace of
protocol operations plus an outcome.  Order as in the source: connect,
`XkbOpenDisplay`, intern the two atoms, help check (print usage and
`exit(0)`), `rec_query_tree` from the root, criterion resolution, then
either the grab loop followed by the dispatch loop, or the empty-target
diagnostic and `exit(1)`.  `fuel` bounds the tree recursion. -/
def mainModel (cfg : Config) (w : MainWorld) (fuel : Nat) : List Op × Outcome :=
  let pre : List Op :=
    [Op.connect, Op.openDisplay, Op.internAtom "_NET_WM_PID", Op.internAtom "_NET_WM_NAME"]
  if cfg.help then
    (pre ++ [Op.printUsage], Outcome.exited 0)
  else
    match rec_query_tree w.children fuel w.root [] with
    | none => (pre ++ [Op.queryTree], Outcome.diverged)
    | some clients =>
      let windows := resolveTargets cfg clients w.props
      match windows with
      | [] => (pre ++ [Op.queryTree, Op.printErr noWindowErr], Outcome.exited 1)
      | w0 :: _ =>
        let wins := if cfg.all_windows then windows else [w0]
        let res := grabLoop w.srv wins
        (pre ++ [Op.queryTree] ++ res.2.1, Outcome.entersLoop res.2.2)

/-- `CURRENT_TIME` (X11 constant 0), written into re-emitted events. -/
def currentTime : Nat := 0

/-- One `send_event` call: the propagate flag, the destination window, the
event-mask argument, and the event sent. -/
structure SendOp where
  propagate : Bool
  destination : Nat
  eventMask : Nat
  ev : KeyEvt
deriving DecidableEq

/-- The events the dispatch loop distinguishes (src/main.rs lines 340-364):
key press, key release, anything else. -/
inductive XEvent where
  | keyPress (e : KeyEvt)
  | keyRelease (e : KeyEvt)
  | other
deriving DecidableEq

/-- Per-event body of the dispatch loop (src/main.rs lines 339-364).
Returns `none` when the `masks[&e.event]` map lookup panics (the window is
not a key of the table); otherwise `some (sends, calls)` where `sends` is
the list of `send_event` calls made and `calls` counts `translate`
invocations.  The u32 to u16 truncation of `e.state = state as _` is
`% 2 ^ 16`. -/
def dispatchStep (o : XkbOracle) (layout : Nat) (masks : Nat → Option Nat) :
    XEvent → Option (List SendOp × Nat)
  | XEvent.keyPress e =>
    if e.sentEvent then some ([], 0)
    else
      let r := translate o (KeyEvent.press e) layout
      match masks e.event with
      | none => none
      | some m =>
        some ([{ propagate := true, destination := e.event, eventMask := m,
                 ev := { e with detail := r.1, state := r.2 % 2 ^ 16, time := currentTime } }], 1)
  | XEvent.keyRelease e =>
    if e.sentEvent then some ([], 0)
    else
      let r := translate o (KeyEvent.release e) layout
      match masks e.event with
      | none => none
      | some m =>
        some ([{ propagate := true, destination := e.event, eventMask := m,
                 ev := { e with detail := r.1, state := r.2 % 2 ^ 16, time := currentTime } }], 1)
  | XEvent.other => some ([], 0)


/-- C2: if either backward resolution step (keysym to keycode, keysym to
modifiers) yields a value at or above the sentinel bound 204, `translate`
returns exactly the original (keycode, modifier-state) pair, for both press
and release events, and never an error. -/
theorem claim_C2_identity_fallback (o : XkbOracle) (ev : KeyEvent) (layout : Nat)
    (h : 204 ≤ o.keysymToKeycode (o.keycodeToKeysym ev.evt.detail layout ev.evt.state) ∨
         204 ≤ o.keysymToModifiers (o.keycodeToKeysym ev.evt.detail layout ev.evt.state)) :
    translate o ev layout = (ev.evt.detail, ev.evt.state) := by
  cases ev with
  | press e =>
    simp only [translate, KeyEvent.evt] at h ⊢
    rw [if_pos h]
  | release e =>
    simp only [translate, KeyEvent.evt] at h ⊢
    rw [if_pos h]

/-- Witness for C2 at a concrete oracle whose keysym-to-keycode map yields
250 ≥ 204. -/
theorem claim_C2_witness :
    translate ⟨fun _ _ _ => 7, fun _ => 250, fun _ => 0⟩
      (KeyEvent.press ⟨38, 5, 1, 0, false⟩) 1 = (38, 5) :=
  claim_C2_identity_fallback ⟨fun _ _ _ => 7, fun _ => 250, fun _ => 0⟩
    (KeyEvent.press ⟨38, 5, 1, 0, false⟩) 1 (Or.inl (by decide))

/-- C3: an event whose origin flag marks it as self-generated is discarded
by the dispatch step: no `send_event` call is made and `translate` is never
invoked, for both key-press and key-release events. -/
theorem claim_C3_synthetic_discarded (o : XkbOracle) (layout : Nat)
    (masks : Nat → Option Nat) (e : KeyEvt) (h : e.sentEvent = true) :
    dispatchStep o layout masks (XEvent.keyPress e) = some ([], 0) ∧
    dispatchStep o layout masks (XEvent.keyRelease e) = some ([], 0) := by
  constructor <;> simp [dispatchStep, h]

/-- Witness for C3 at a concrete marked-synthetic event. -/
theorem claim_C3_witness :
    dispatchStep ⟨fun _ _ _ => 0, fun _ => 0, fun _ => 0⟩ 0 (fun _ => some 3)
      (XEvent.keyPress ⟨38, 0, 42, 5, true⟩) = some ([], 0) ∧
    dispatchStep ⟨fun _ _ _ => 0, fun _ => 0, fun _ => 0⟩ 0 (fun _ => some 3)
      (XEvent.keyRelease ⟨38, 0, 42, 5, true⟩) = some ([], 0) :=
  claim_C3_synthetic_discarded ⟨fun _ _ _ => 0, fun _ => 0, fun _ => 0⟩ 0
    (fun _ => some 3) ⟨38, 0, 42, 5, true⟩ rfl

/-- C9: a non-synthetic key event whose event window is not a key of the
masks table makes the dispatch step panic on the `masks[&e.event]` lookup
(modelled by `none`), rather than skipping the event or returning an
error value. -/
theorem claim_C9_missing_mask_panics (o : XkbOracle) (layout : Nat)
    (masks : Nat → Option Nat) (e : KeyEvt)
    (h1 : e.sentEvent = false) (h2 : masks e.event = none) :
    dispatchStep o layout masks (XEvent.keyPress e) = none ∧
    dispatchStep o layout masks (XEvent.keyRelease e) = none := by
  constructor <;> simp [dispatchStep, h1, h2]

/-- Witness for C9 at a concrete event targeting a window absent from the
masks table. -/
theorem claim_C9_witness :
    dispatchStep ⟨fun _ _ _ => 0, fun _ => 0, fun _ => 0⟩ 0 (fun _ => none)
      (XEvent.keyPress ⟨38, 0, 42, 5, false⟩) = none ∧
    dispatchStep ⟨fun _ _ _ => 0, fun _ => 0, fun _ => 0⟩ 0 (fun _ => none)
      (XEvent.keyRelease ⟨38, 0, 42, 5, false⟩) = none :=
  claim_C9_missing_mask_panics ⟨fun _ _ _ => 0, fun _ => 0, fun _ => 0⟩ 0
    (fun _ => none) ⟨38, 0, 42, 5, false⟩ rfl rfl


lemma keyPressBit_testBit : Nat.testBit keyPressBit 0 = true := by decide

lemma keyReleaseBit_testBit : Nat.testBit keyReleaseBit 1 = true := by decide

lemma installGrab_stored (srv : XServer) (w : Nat) :
    (installGrab srv w).2.2 = srv.eventMask w ||| keyPressBit ||| keyReleaseBit := by
  simp [installGrab]

lemma or_bits_testBit_zero (m : Nat) :
    (m ||| keyPressBit ||| keyReleaseBit).testBit 0 = true := by
  rw [Nat.testBit_or, Nat.testBit_or, keyPressBit_testBit]
  simp

lemma or_bits_testBit_one (m : Nat) :
    (m ||| keyPressBit ||| keyReleaseBit).testBit 1 = true := by
  rw [Nat.testBit_or, keyReleaseBit_testBit]
  simp

lemma grabLoop_foldl_mem (wins : List Nat) :
    ∀ (acc : XServer × List Op × List (Nat × Nat)) (w m : Nat),
      (w, m) ∈ (wins.foldl grabLoopStep acc).2.2 →
      (w, m) ∈ acc.2.2 ∨ ∃ k, m = k ||| keyPressBit ||| keyReleaseBit := by
  induction wins with
  | nil => intro acc w m h; exact Or.inl h
  | cons win wins ih =>
    intro acc w m h
    rcases ih (grabLoopStep acc win) w m h with h2 | h2
    · simp only [grabLoopStep, installGrab, List.mem_append, List.mem_singleton] at h2
      rcases h2 with h2 | h2
      · exact Or.inl h2
      · right
        refine ⟨acc.1.eventMask win, ?_⟩
        have := congrArg Prod.snd h2
        simpa using this
    · exact Or.inr h2

/-- C4: for every window processed by the grab installer, the mask it stores
in the masks table keeps every bit of the mask read before installation and
additionally has the key-press bit (bit 0) and the key-release bit (bit 1)
set; every mask recorded in the table by the grab loop has both key bits. -/
theorem claim_C4_mask_invariant :
    (∀ (srv : XServer) (w i : Nat),
        ((installGrab srv w).2.2).testBit 0 = true ∧
        ((installGrab srv w).2.2).testBit 1 = true ∧
        (((installGrab srv w).2.1).testBit i = true →
          ((installGrab srv w).2.2).testBit i = true)) ∧
    (∀ (srv : XServer) (wins : List Nat) (w m : Nat),
        (w, m) ∈ (grabLoop srv wins).2.2 →
        m.testBit 0 = true ∧ m.testBit 1 = true) := by
  constructor
  · intro srv w i
    refine ⟨?_, ?_, ?_⟩
    · rw [installGrab_stored]; exact or_bits_testBit_zero _
    · rw [installGrab_stored]; exact or_bits_testBit_one _
    · intro h
      rw [installGrab_stored]
      have hp : (installGrab srv w).2.1 = srv.eventMask w := by simp [installGrab]
      rw [hp] at h
      simp [Nat.testBit_or, h]
  · intro srv wins w m h
    rcases grabLoop_foldl_mem wins (srv, [], []) w m h with h2 | ⟨k, rfl⟩
    · simp at h2
    · exact ⟨or_bits_testBit_zero k, or_bits_testBit_one k⟩

/-- Witness for C4: a window whose prior mask is 8 gets mask 11 stored, with
both key bits set. -/
theorem claim_C4_witness :
    Nat.testBit 11 0 = true ∧ Nat.testBit 11 1 = true :=
  claim_C4_mask_invariant.2 ⟨fun _ => 8⟩ [42] 42 11 (by decide)

/-- C6 counterexample: with a single resolved target window (the masks table
built from the one-window list [42]), the dispatch step still emits its
synthetic event with the propagate flag set to `true`, not disabled. -/
theorem claim_C6_counterexample :
    (grabLoop ⟨fun _ => 8⟩ [42]).2.2 = [(42, 11)] ∧
    (dispatchStep ⟨fun _ _ _ => 0, fun _ => 0, fun _ => 0⟩ 0
        (fun w => List.lookup w (grabLoop ⟨fun _ => 8⟩ [42]).2.2)
        (XEvent.keyPress ⟨38, 0, 42, 5, false⟩)).getD ([], 0)
      = ([{ propagate := true, destination := 42, eventMask := 11,
            ev := ⟨0, 0, 42, 0, false⟩ }], 1) := by
  constructor <;> decide

/-- C6 amended: the propagate flag passed to `send_event` is always `true`,
regardless of whether one or all resolved windows are targeted, and the
delivery mask of every emitted event is the masks-table entry for the
event's window (not the raw incoming mask). -/
theorem claim_C6_propagate_always (o : XkbOracle) (layout : Nat)
    (masks : Nat → Option Nat) (ev : XEvent) (ops : List SendOp) (n : Nat)
    (h : dispatchStep o layout masks ev = some (ops, n)) :
    ∀ op ∈ ops, op.propagate = true ∧ masks op.destination = some op.eventMask := by
  intro op hop
  cases ev with
  | keyPress e =>
    by_cases hs : e.sentEvent
    · simp [dispatchStep, hs] at h
      rcases h with ⟨h1, h2⟩
      subst h1
      simp at hop
    · cases hm : masks e.event with
      | none => simp [dispatchStep, hs, hm] at h
      | some m =>
        simp [dispatchStep, hs, hm] at h
        rcases h with ⟨h1, h2⟩
        subst h1
        simp at hop
        subst hop
        exact ⟨rfl, hm⟩
  | keyRelease e =>
    by_cases hs : e.sentEvent
    · simp [dispatchStep, hs] at h
      rcases h with ⟨h1, h2⟩
      subst h1
      simp at hop
    · cases hm : masks e.event with
      | none => simp [dispatchStep, hs, hm] at h
      | some m =>
        simp [dispatchStep, hs, hm] at h
        rcases h with ⟨h1, h2⟩
        subst h1
        simp at hop
        subst hop
        exact ⟨rfl, hm⟩
  | other =>
    simp [dispatchStep] at h
    rcases h with ⟨h1, h2⟩
    subst h1
    simp at hop

/-- Witness for C6 at a concrete dispatch step and its single emitted
send operation. -/
theorem claim_C6_witness :
    ({ propagate := true, destination := 42, eventMask := 11,
       ev := ⟨0, 0, 42, 0, false⟩ } : SendOp).propagate = true ∧
    (fun w => if w = 42 then some 11 else none)
      ({ propagate := true, destination := 42, eventMask := 11,
         ev := ⟨0, 0, 42, 0, false⟩ } : SendOp).destination =
      some ({ propagate := true, destination := 42, eventMask := 11,
              ev := ⟨0, 0, 42, 0, false⟩ } : SendOp).eventMask :=
  claim_C6_propagate_always ⟨fun _ _ _ => 0, fun _ => 0, fun _ => 0⟩ 0
    (fun w => if w = 42 then some 11 else none)
    (XEvent.keyPress ⟨38, 0, 42, 5, false⟩)
    [{ propagate := true, destination := 42, eventMask := 11, ev := ⟨0, 0, 42, 0, false⟩ }]
    1 (by decide)
    { propagate := true, destination := 42, eventMask := 11, ev := ⟨0, 0, 42, 0, false⟩ }
    (by simp)


lemma count_filter_decide (p : Nat → Bool) (l : List Nat) (w : Nat) :
    (l.filter p).count w = if p w = true then l.count w else 0 := by
  induction l with
  | nil => simp
  | cons a l ih =>
    by_cases haw : a = w
    · subst haw
      by_cases ha : p a
      · simp [List.filter_cons, ha, List.count_cons, ih]
      · simp [List.filter_cons, ha, List.count_cons, ih]
    · by_cases ha : p a
      · simp [List.filter_cons, ha, List.count_cons, ih, haw]
      · simp [List.filter_cons, ha, List.count_cons, ih, haw]

/-- Config used for the C1 counterexample: both a class criterion and a pid
criterion are supplied. -/
def cfgClassPid : Config := { defaultConfig with cls := some "A.B", pid := some 5 }

/-- Properties of the C1 counterexample window 1: it satisfies the class
criterion of `cfgClassPid` but not the pid criterion (its pid is 7, not 5). -/
def propsClassOnly : WinProps :=
  { classProp := fun _ => some ("A", "B"), pidProp := fun _ => some 7,
    netName := fun _ => "", wmName := fun _ => "" }

/-- C1 counterexample: with two criteria supplied (class "A.B" and pid 5),
window 1 satisfies only the class criterion yet is still added to the
TargetSet — matching is not conjunctive. -/
theorem claim_C1_counterexample :
    resolveTargets cfgClassPid [1] propsClassOnly = [1] ∧
    pidMatches 5 propsClassOnly 1 = false ∧
    cfgClassPid.pid = some 5 := by
  refine ⟨by decide, by decide, rfl⟩

/-- C1 amended: matching is disjunctive, not conjunctive — a window enters
the TargetSet exactly when it is the explicit id or is a client satisfying
at least one supplied criterion (and it may be added once per satisfied
criterion, see the multiplicity theorem for C8). -/
theorem claim_C1_disjunctive (cfg : Config) (clients : List Nat)
    (props : WinProps) (w : Nat) :
    w ∈ resolveTargets cfg clients props ↔
      cfg.wid = some w ∨
      (w ∈ clients ∧
        ((∃ c, cfg.cls = some c ∧ classMatches c props w = true) ∨
         (∃ p, cfg.pid = some p ∧ pidMatches p props w = true) ∨
         (∃ n, cfg.name = some n ∧ nameMatches n props w = true))) := by
  rcases cfg with ⟨help, aw, layout, wid, cls, pid, name⟩
  cases wid <;> cases cls <;> cases pid <;> cases name <;>
    simp [resolveTargets, List.mem_filter, List.mem_append] <;> tauto

/-- Witness for C1 applied at the counterexample input: window 1 is in the
TargetSet because it satisfies the class criterion alone. -/
theorem claim_C1_witness :
    1 ∈ resolveTargets cfgClassPid [1] propsClassOnly :=
  (claim_C1_disjunctive cfgClassPid [1] propsClassOnly 1).mpr
    (Or.inr ⟨by decide, Or.inl ⟨"A.B", rfl, by decide⟩⟩)

/-- Config used for the C8 counterexample: a pid criterion and a name
criterion are supplied. -/
def cfgPidName : Config := { defaultConfig with pid := some 5, name := some "T" }

/-- Properties of the C8 counterexample window 2: it satisfies both the pid
criterion and the name criterion of `cfgPidName`. -/
def propsPidName : WinProps :=
  { classProp := fun _ => none, pidProp := fun _ => some 5,
    netName := fun _ => "T", wmName := fun _ => "" }

/-- C8 counterexample: window 2 satisfies both supplied criteria and is
appended by both criterion loops, so it appears twice in the TargetSet. -/
theorem claim_C8_counterexample :
    resolveTargets cfgPidName [2] propsPidName = [2, 2] ∧
    (resolveTargets cfgPidName [2] propsPidName).count 2 = 2 := by
  refine ⟨by decide, by decide⟩

/-- C8 amended: the TargetSet is an ordered sequence but is not
deduplicated: on a duplicate-free client list, a window appears once per
supplied criterion it satisfies, plus once if it is the explicit id. -/
theorem claim_C8_multiplicity (cfg : Config) (clients : List Nat)
    (props : WinProps) (w : Nat) (hnd : clients.Nodup) (hw : w ∈ clients) :
    (resolveTargets cfg clients props).count w =
      (if cfg.wid = some w then 1 else 0) +
      (match cfg.cls with
       | some c => if classMatches c props w then 1 else 0
       | none => 0) +
      (match cfg.pid with
       | some p => if pidMatches p props w then 1 else 0
       | none => 0) +
      (match cfg.name with
       | some n => if nameMatches n props w then 1 else 0
       | none => 0) := by
  have hc : clients.count w = 1 := List.count_eq_one_of_mem hnd hw
  rcases cfg with ⟨help, aw, layout, wid, cls, pid, name⟩
  cases wid <;> cases cls <;> cases pid <;> cases name <;>
    simp [resolveTargets, List.count_append, List.count_cons, count_filter_decide, hc] <;>
    split_ifs <;> simp_all

/-- Witness for C8 at the counterexample input: the count formula evaluates
to two occurrences of window 2. -/
theorem claim_C8_witness :
    (resolveTargets cfgPidName [2] propsPidName).count 2 = 2 := by
  rw [claim_C8_multiplicity cfgPidName [2] propsPidName 2 (by decide) (by decide)]
  decide


/-- A world with no windows, empty properties, and zeroed masks, used to
instantiate the startup-phase theorems. -/
def emptyWorld : MainWorld :=
  { srv := ⟨fun _ => 0⟩, root := 0, children := fun _ => [],
    props := { classProp := fun _ => none, pidProp := fun _ => none,
               netName := fun _ => "", wmName := fun _ => "" } }

/-- C5: when the resolved TargetSet is empty (and the help flag is unset),
`main` prints the diagnostic to standard error and exits with status 1,
without installing any grab and without entering the dispatch loop. -/
theorem claim_C5_empty_targets (cfg : Config) (w : MainWorld) (fuel : Nat)
    (clients : List Nat)
    (hh : cfg.help = false)
    (hq : rec_query_tree w.children fuel w.root [] = some clients)
    (he : resolveTargets cfg clients w.props = []) :
    (mainModel cfg w fuel).2 = Outcome.exited 1 ∧
    Op.printErr noWindowErr ∈ (mainModel cfg w fuel).1 ∧
    (∀ x, Op.grabKey x ∉ (mainModel cfg w fuel).1) ∧
    (∀ x mask, Op.changeAttributes x mask ∉ (mainModel cfg w fuel).1) ∧
    (∀ tbl, (mainModel cfg w fuel).2 ≠ Outcome.entersLoop tbl) := by
  have hm : mainModel cfg w fuel =
      ([Op.connect, Op.openDisplay, Op.internAtom "_NET_WM_PID",
        Op.internAtom "_NET_WM_NAME", Op.queryTree, Op.printErr noWindowErr],
       Outcome.exited 1) := by
    simp [mainModel, hh, hq, he]
  rw [hm]
  refine ⟨rfl, by simp, ?_, ?_, ?_⟩
  · intro x; simp
  · intro x mask; simp
  · intro tbl; simp

/-- Witness for C5: with no criteria supplied, nothing matches and the
modelled `main` exits with status 1 after printing the diagnostic. -/
theorem claim_C5_witness :
    (mainModel defaultConfig emptyWorld 1).2 = Outcome.exited 1 ∧
    Op.printErr noWindowErr ∈ (mainModel defaultConfig emptyWorld 1).1 := by
  have h := claim_C5_empty_targets defaultConfig emptyWorld 1 [] rfl (by decide) (by decide)
  exact ⟨h.1, h.2.1⟩

/-- C7 counterexample: with the help flag set, the exit with status 0 does
happen, but the trace already contains the display connection, the Xkb
display open, and both atom internings before the usage text is printed —
protocol work has begun before the help exit. -/
theorem claim_C7_counterexample :
    mainModel { defaultConfig with help := true } emptyWorld 0 =
      ([Op.connect, Op.openDisplay, Op.internAtom "_NET_WM_PID",
        Op.internAtom "_NET_WM_NAME", Op.printUsage], Outcome.exited 0) ∧
    Op.connect ∈ (mainModel { defaultConfig with help := true } emptyWorld 0).1 ∧
    Op.internAtom "_NET_WM_PID" ∈
      (mainModel { defaultConfig with help := true } emptyWorld 0).1 := by
  refine ⟨by decide, by decide, by decide⟩

/-- C7 amended: when the help flag is set, the process prints the usage text
and exits with status 0 after connecting to the displays and interning the
two atoms, but before the window-tree query, any grab installation, and the
dispatch loop. -/
theorem claim_C7_help_exit (cfg : Config) (w : MainWorld) (fuel : Nat)
    (hh : cfg.help = true) :
    mainModel cfg w fuel =
      ([Op.connect, Op.openDisplay, Op.internAtom "_NET_WM_PID",
        Op.internAtom "_NET_WM_NAME", Op.printUsage], Outcome.exited 0) ∧
    Op.queryTree ∉ (mainModel cfg w fuel).1 ∧
    (∀ x, Op.grabKey x ∉ (mainModel cfg w fuel).1) ∧
    (∀ tbl, (mainModel cfg w fuel).2 ≠ Outcome.entersLoop tbl) := by
  have hm : mainModel cfg w fuel =
      ([Op.connect, Op.openDisplay, Op.internAtom "_NET_WM_PID",
        Op.internAtom "_NET_WM_NAME", Op.printUsage], Outcome.exited 0) := by
    simp [mainModel, hh]
  rw [hm]
  refine ⟨rfl, by simp, ?_, ?_⟩
  · intro x; simp
  · intro tbl; simp

/-- Witness for C7 with the help flag set in an otherwise default config. -/
theorem claim_C7_witness :
    mainModel { defaultConfig with help := true } emptyWorld 3 =
      ([Op.connect, Op.openDisplay, Op.internAtom "_NET_WM_PID",
        Op.internAtom "_NET_WM_NAME", Op.printUsage], Outcome.exited 0) :=
  (claim_C7_help_exit { defaultConfig with help := true } emptyWorld 3 rfl).1


lemma rqtChildren_isSome (f : Nat → List Nat → Option (List Nat)) (P : Nat → Prop)
    (hf : ∀ c vec, P c → (f c vec).isSome = true) :
    ∀ (cs vec : List Nat), (∀ c ∈ cs, P c) → (rqtChildren f cs vec).isSome = true := by
  intro cs
  induction cs with
  | nil => intro vec h; simp [rqtChildren]
  | cons c cs ih =>
    intro vec h
    have h1 := hf c vec (h c (by simp))
    cases hv : f c vec with
    | none => rw [hv] at h1; simp at h1
    | some v =>
      simp only [rqtChildren, hv]
      exact ih (v ++ [c]) (fun d hd => h d (by simp [hd]))

lemma rqt_isSome (children : Nat → List Nat) (h : Nat → Nat)
    (hdec : ∀ w c, c ∈ children w → h c < h w) :
    ∀ (fuel win : Nat) (vec : List Nat), h win < fuel →
      (rec_query_tree children fuel win vec).isSome = true := by
  intro fuel
  induction fuel with
  | zero => intro win vec hlt; exact absurd hlt (Nat.not_lt_zero _)
  | succ fuel ih =>
    intro win vec hlt
    simp only [rec_query_tree]
    by_cases hc : vec.contains win = true
    · rw [if_pos hc]
      rfl
    · rw [if_neg hc]
      refine rqtChildren_isSome _ (fun c => h c < fuel)
        (fun c v hp => ih c v hp) (children win) vec ?_
      intro c hcin
      have := hdec win c hcin
      omega

lemma rqtChildren_mem (f : Nat → List Nat → Option (List Nat)) (Q : Nat → Nat → Prop)
    (hf : ∀ c vec out x, f c vec = some out → x ∈ out → x ∈ vec ∨ Q c x) :
    ∀ (cs vec out : List Nat) (x : Nat),
      rqtChildren f cs vec = some out → x ∈ out →
      x ∈ vec ∨ ∃ c ∈ cs, x = c ∨ Q c x := by
  intro cs
  induction cs with
  | nil =>
    intro vec out x he hx
    simp only [rqtChildren, Option.some.injEq] at he
    subst he
    exact Or.inl hx
  | cons c cs ih =>
    intro vec out x he hx
    cases hv : f c vec with
    | none =>
      simp only [rqtChildren, hv] at he
      exact Option.noConfusion he
    | some v =>
      simp only [rqtChildren, hv] at he
      rcases ih (v ++ [c]) out x he hx with h1 | ⟨d, hd, h2⟩
      · rcases List.mem_append.mp h1 with h3 | h3
        · rcases hf c vec v x hv h3 with h4 | h4
          · exact Or.inl h4
          · exact Or.inr ⟨c, by simp, Or.inr h4⟩
        · exact Or.inr ⟨c, by simp, Or.inl (by simpa using h3)⟩
      · exact Or.inr ⟨d, by simp [hd], h2⟩

lemma rqt_mem (children : Nat → List Nat) (h : Nat → Nat)
    (hdec : ∀ w c, c ∈ children w → h c < h w) :
    ∀ (fuel win : Nat) (vec out : List Nat) (x : Nat),
      rec_query_tree children fuel win vec = some out → x ∈ out →
      x ∈ vec ∨ h x < h win := by
  intro fuel
  induction fuel with
  | zero => intro win vec out x he hx; simp [rec_query_tree] at he
  | succ fuel ih =>
    intro win vec out x he hx
    simp only [rec_query_tree] at he
    by_cases hc : vec.contains win = true
    · rw [if_pos hc] at he
      injection he with he
      subst he
      exact Or.inl hx
    · rw [if_neg hc] at he
      have hf : ∀ c v o xx,
          (fun c acc => rec_query_tree children fuel c acc) c v = some o →
          xx ∈ o → xx ∈ v ∨ h xx < h c :=
        fun c v o xx hfe hxx => ih c v o xx hfe hxx
      rcases rqtChildren_mem _ (fun c x => h x < h c) hf (children win) vec out x he hx with
        h1 | ⟨c, hcin, h2⟩
      · exact Or.inl h1
      · right
        have hlt := hdec win c hcin
        rcases h2 with rfl | h2
        · exact hlt
        · omega

lemma rqt_cycle : ∀ fuel : Nat, rec_query_tree (fun _ => [0]) fuel 0 [] = none := by
  intro fuel
  induction fuel with
  | zero => rfl
  | succ fuel ih => simp [rec_query_tree, rqtChildren, ih]

/-- C10: `rec_query_tree` terminates on every child relation that admits a
decreasing height measure (finite acyclic window graph): some fuel bound
suffices.  Under the same precondition the starting window is never added
to the output list.  The deduplication check is insufficient under cycles:
on the self-loop relation the recursion runs out of any fuel bound, i.e. it
does not terminate. -/
theorem claim_C10_rec_query_tree :
    (∀ (children : Nat → List Nat) (h : Nat → Nat) (fuel win : Nat) (vec : List Nat),
        (∀ w c, c ∈ children w → h c < h w) → h win < fuel →
        (rec_query_tree children fuel win vec).isSome = true) ∧
    (∀ (children : Nat → List Nat) (h : Nat → Nat) (fuel win : Nat) (out : List Nat),
        (∀ w c, c ∈ children w → h c < h w) →
        rec_query_tree children fuel win [] = some out → win ∉ out) ∧
    (∀ fuel : Nat, rec_query_tree (fun _ => [0]) fuel 0 [] = none) := by
  refine ⟨?_, ?_, rqt_cycle⟩
  · intro children h fuel win vec hdec hlt
    exact rqt_isSome children h hdec fuel win vec hlt
  · intro children h fuel win out hdec he hmem
    rcases rqt_mem children h hdec fuel win [] out win he hmem with h1 | h1
    · simp at h1
    · omega

/-- Witness for C10: the two-window tree 0 → 1 with height measure, and the
self-loop relation. -/
theorem claim_C10_witness :
    (rec_query_tree (fun w => if w = 0 then [1] else []) 2 0 []).isSome = true ∧
    rec_query_tree (fun _ => [0]) 5 0 [] = none := by
  constructor
  · exact claim_C10_rec_query_tree.1 (fun w => if w = 0 then [1] else [])
      (fun w => if w = 0 then 1 else 0) 2 0 []
      (by
        intro w c hc
        by_cases hw : w = 0
        · subst hw
          simp at hc
          subst hc
          decide
        · simp [hw] at hc)
      (by decide)
  · exact claim_C10_rec_query_tree.2.2 5

end Mmk
